import Mathlib

/-
Verification development for the CSE CXL 2.0 switch emulator.

The definitions below are a shallow embedding of the switch model
(state.h / cxlstate) and of the FM API command handlers
(fmapi_isc_handler.c, fmapi_psc_handler.c, fmapi_vsc_handler.c,
fmapi_mpc_handler.c, fmapi_mcc_handler.c, state.c).

Conventions of the embedding:
- machine integers are Nat; an explicit `% 2 ^ 64` is written where the C
  code computes in __u64 and wrap-around is possible;
- the fixed-size arrays of the C structs (ports[], vcss[], vppbs[],
  rng1[], cfgspace[], the mmapped memory image) are total functions from
  Nat, read and written only at the indices the handlers touch;
- a NULL-able pointer is an Option; C code that would dereference a NULL
  pointer is modelled as returning `none` (the crash);
- each handler is modelled from the point where the request object has
  been decoded (pipeline steps 6-8 of the source): decode errors, the
  MCTP transport and the QEMU pass-through mode (opts[CLOP_QEMU] unset
  in the emulator configuration modelled here) are outside the model;
- `fmapi_serialize` of a fixed-shape response object never fails, so the
  response payload length is carried only where a claim mentions it;
- the single model mutex is tracked, where a claim needs it, as a Bool
  in the handler result: `true` means the handler released the lock on
  the path it took, `false` means it returned with the lock still held.
-/

/-- Port Configuration State [FMPS], the closed set of §3 of the spec. -/
inductive PortState where
  | disabled
  | binding
  | unbinding
  | dsp
  | usp
  | fabric
  | invalid
deriving DecidableEq

/-- Connected device type [FMDT]. -/
inductive DevType where
  | nodev
  | pcieDev
  | cxlType1
  | cxlType2
  | cxlType3
  | cxlType3Pooled
  | cxlSwitch
deriving DecidableEq

/-- vPPB binding status [FMBS]. -/
inductive BindStatus where
  | unbound
  | inprogress
  | boundPort
  | boundLd
deriving DecidableEq

/-- MLD memory granularity [FMMG]. -/
inductive Granularity where
  | g256mb
  | g512mb
  | g1gb
deriving DecidableEq

/-- FM API return code SUCCESS (CXL 2.0 fixed value). -/
def FMRC_SUCCESS : Nat := 0x0000

/-- FM API return code BACKGROUND_OP_STARTED (CXL 2.0 fixed value). -/
def FMRC_BACKGROUND_OP_STARTED : Nat := 0x0001

/-- FM API return code INVALID_INPUT (CXL 2.0 fixed value). -/
def FMRC_INVALID_INPUT : Nat := 0x0002

/-- FM API return code UNSUPPORTED (CXL 2.0 fixed value). -/
def FMRC_UNSUPPORTED : Nat := 0x0003

/-- Config-space access type: READ. -/
def FMCT_READ : Nat := 0x00

/-- Config-space access type: WRITE. -/
def FMCT_WRITE : Nat := 0x01

/-- Port control sub-opcode ASSERT_PERST. -/
def FMPO_ASSERT_PERST : Nat := 0x00

/-- Port control sub-opcode DEASSERT_PERST. -/
def FMPO_DEASSERT_PERST : Nat := 0x01

/-- Port control sub-opcode RESET_PPB. -/
def FMPO_RESET_PPB : Nat := 0x02

/-- FM API opcode of VSC_BIND. -/
def FMOP_VSC_BIND : Nat := 0x5301

/-- Multi Logical Device object (struct mld of state.h). -/
structure Mld where
  memory_size : Nat
  num : Nat
  epc : Nat
  ttr : Nat
  granularity : Granularity
  rng1 : Nat → Nat
  rng2 : Nat → Nat
  epc_en : Nat
  ttr_en : Nat
  egress_mod_pcnt : Nat
  egress_sev_pcnt : Nat
  sample_interval : Nat
  rcb : Nat
  comp_interval : Nat
  bp_avg_pcnt : Nat
  alloc_bw : Nat → Nat
  bw_limit : Nat → Nat
  cfgspace : Nat → Nat → Nat
  memspace : Option (Nat → Nat)
  file : Option String

/-- Virtual PCIe-to-PCIe bridge (struct vppb of state.h). -/
structure Vppb where
  vppbid : Nat
  bind_status : BindStatus
  ppid : Nat
  ldid : Nat
deriving DecidableEq

/-- Virtual CXL switch (struct vcs of state.h). -/
structure Vcs where
  vcsid : Nat
  state : Nat
  uspid : Nat
  num : Nat
  vppbs : Nat → Vppb

/-- Physical port (struct port of state.h / struct cxl_port). -/
structure Port where
  ppid : Nat
  state : PortState
  dv : Nat
  dt : DevType
  cv : Nat
  mlw : Nat
  nlw : Nat
  speeds : Nat
  mls : Nat
  cls : Nat
  ltssm : Nat
  lane : Nat
  lane_rev : Nat
  perst : Nat
  prsnt : Nat
  pwrctrl : Nat
  ld : Nat
  cfgspace : Nat → Nat
  mld : Option Mld
  device_name : Option String

/-- The switch model (struct cxl_switch_state of state.h). -/
structure CxlSwitch where
  msg_rsp_limit_n : Nat
  bos_running : Nat
  bos_pcnt : Nat
  bos_opcode : Nat
  bos_rc : Nat
  bos_ext : Nat
  num_ports : Nat
  num_vcss : Nat
  ports : Nat → Port
  vcss : Nat → Vcs

/-- Replace the port at index `i`. -/
def setPort (s : CxlSwitch) (i : Nat) (p : Port) : CxlSwitch :=
  { s with ports := fun j => if j = i then p else s.ports j }

/-- Replace the vPPB at index `vppbid` of the VCS at index `vcsid`. -/
def setVppb (s : CxlSwitch) (vcsid vppbid : Nat) (b : Vppb) : CxlSwitch :=
  { s with vcss := fun i =>
      if i = vcsid then
        { s.vcss i with vppbs := fun j => if j = vppbid then b else (s.vcss i).vppbs j }
      else s.vcss i }

/-- Request object of VSC_BIND (fmapi_vsc_bind_req), together with the
opcode carried by the decoded request header, which the handler copies
into the background-operation block. -/
structure VscBindReq where
  opcode : Nat
  vcsid : Nat
  vppbid : Nat
  ppid : Nat
  ldid : Nat

/-- Mutation performed by the accepting path of fmop_vsc_bind
(fmapi_vsc_handler.c, step 10): write the vPPB, set the port state to
DSP, record the background-operation block. -/
def vscBindEffect (s : CxlSwitch) (r : VscBindReq) : CxlSwitch :=
  let b := (s.vcss r.vcsid).vppbs r.vppbid
  let b' := if r.ldid ≠ 0xFFFF then
      { b with bind_status := BindStatus.boundLd, ppid := r.ppid, ldid := r.ldid }
    else
      { b with bind_status := BindStatus.boundPort, ppid := r.ppid, ldid := 0 }
  let s1 := setVppb s r.vcsid r.vppbid b'
  let s2 := setPort s1 r.ppid { s1.ports r.ppid with state := PortState.dsp }
  { s2 with bos_running := 0, bos_pcnt := 100, bos_opcode := r.opcode,
            bos_rc := FMRC_SUCCESS, bos_ext := 0 }

/-- Handler for FM API VSC Bind (fmop_vsc_bind, fmapi_vsc_handler.c).
Result is (switch state at exit, rc, response payload length).
The validation chain is translated test by test in source order. -/
def fmop_vsc_bind (s : CxlSwitch) (r : VscBindReq) : CxlSwitch × Nat × Nat :=
  if s.num_vcss ≤ r.vcsid then (s, FMRC_INVALID_INPUT, 0)
  else if (s.vcss r.vcsid).num ≤ r.vppbid then (s, FMRC_INVALID_INPUT, 0)
  else if s.num_ports ≤ r.ppid then (s, FMRC_INVALID_INPUT, 0)
  else if (s.ports r.ppid).state = PortState.disabled then (s, FMRC_INVALID_INPUT, 0)
  else if r.ldid ≠ 0xFFFF ∧
      ¬((s.ports r.ppid).dt = DevType.cxlType3 ∨ (s.ports r.ppid).dt = DevType.cxlType3Pooled) then
    (s, FMRC_INVALID_INPUT, 0)
  else if 0 < (s.ports r.ppid).ld ∧ r.ldid = 0xFFFF then (s, FMRC_INVALID_INPUT, 0)
  else if r.ldid ≠ 0xFFFF ∧ (s.ports r.ppid).ld = 0 then (s, FMRC_INVALID_INPUT, 0)
  else if ((s.vcss r.vcsid).vppbs r.vppbid).bind_status ≠ BindStatus.unbound then
    (s, FMRC_INVALID_INPUT, 0)
  else (vscBindEffect s r, FMRC_BACKGROUND_OP_STARTED, 0)

/-- The acceptance condition of claim C1, written from the claim text. -/
def vscBindValidSpec (s : CxlSwitch) (r : VscBindReq) : Prop :=
  r.vcsid < s.num_vcss ∧
  r.vppbid < (s.vcss r.vcsid).num ∧
  r.ppid < s.num_ports ∧
  (s.ports r.ppid).state ≠ PortState.disabled ∧
  (r.ldid ≠ 0xFFFF →
    ((s.ports r.ppid).dt = DevType.cxlType3 ∨ (s.ports r.ppid).dt = DevType.cxlType3Pooled)) ∧
  (0 < (s.ports r.ppid).ld → r.ldid ≠ 0xFFFF) ∧
  (r.ldid ≠ 0xFFFF → 0 < (s.ports r.ppid).ld) ∧
  ((s.vcss r.vcsid).vppbs r.vppbid).bind_status = BindStatus.unbound

instance (s : CxlSwitch) (r : VscBindReq) : Decidable (vscBindValidSpec s r) := by
  unfold vscBindValidSpec
  infer_instance

/-- The accepted-state of claim C1, written from the claim text: the vPPB
becomes (BOUND_LD, ppid, ldid) or (BOUND_PORT, ppid, 0), the port state
becomes DSP, the background-operation block becomes
(0, 100, 0x5301, SUCCESS, 0). -/
def vscBindSpecState (s : CxlSwitch) (r : VscBindReq) : CxlSwitch :=
  { s with
    vcss := fun i =>
      if i = r.vcsid then
        { s.vcss i with vppbs := fun j =>
            if j = r.vppbid then
              (if r.ldid ≠ 0xFFFF then
                { (s.vcss r.vcsid).vppbs r.vppbid with
                    bind_status := BindStatus.boundLd, ppid := r.ppid, ldid := r.ldid }
              else
                { (s.vcss r.vcsid).vppbs r.vppbid with
                    bind_status := BindStatus.boundPort, ppid := r.ppid, ldid := 0 })
            else (s.vcss i).vppbs j }
      else s.vcss i,
    ports := fun i =>
      if i = r.ppid then { s.ports r.ppid with state := PortState.dsp } else s.ports i,
    bos_running := 0, bos_pcnt := 100, bos_opcode := FMOP_VSC_BIND,
    bos_rc := FMRC_SUCCESS, bos_ext := 0 }

/-- Helper: INVALID_INPUT is not BACKGROUND_OP_STARTED. -/
theorem invNeBg : FMRC_INVALID_INPUT = FMRC_BACKGROUND_OP_STARTED → False := by decide

/-- Claim C1: a VSC_BIND request is accepted (rc = BACKGROUND_OP_STARTED)
if and only if the eight validation conditions hold; on acceptance the
state becomes exactly the claimed state; on rejection the handler returns
rc = INVALID_INPUT with payload length 0 and an unchanged model. -/
theorem fmop_vsc_bind_meets_claim (s : CxlSwitch) (r : VscBindReq)
    (hop : r.opcode = FMOP_VSC_BIND) :
    ((fmop_vsc_bind s r).2.1 = FMRC_BACKGROUND_OP_STARTED ↔ vscBindValidSpec s r) ∧
    (vscBindValidSpec s r → (fmop_vsc_bind s r).1 = vscBindSpecState s r) ∧
    (¬ vscBindValidSpec s r → fmop_vsc_bind s r = (s, FMRC_INVALID_INPUT, 0)) := by
  unfold fmop_vsc_bind
  split_ifs with h1 h2 h3 h4 h5 h6 h7 h8
  · exact have hnv : ¬ vscBindValidSpec s r := fun hv => absurd hv.1 (by omega)
    ⟨iff_of_false (fun h => absurd h invNeBg) hnv, fun hv => absurd hv hnv, fun _ => rfl⟩
  · exact have hnv : ¬ vscBindValidSpec s r := fun hv => absurd hv.2.1 (by omega)
    ⟨iff_of_false (fun h => absurd h invNeBg) hnv, fun hv => absurd hv hnv, fun _ => rfl⟩
  · exact have hnv : ¬ vscBindValidSpec s r := fun hv => absurd hv.2.2.1 (by omega)
    ⟨iff_of_false (fun h => absurd h invNeBg) hnv, fun hv => absurd hv hnv, fun _ => rfl⟩
  · exact have hnv : ¬ vscBindValidSpec s r := fun hv => absurd h4 hv.2.2.2.1
    ⟨iff_of_false (fun h => absurd h invNeBg) hnv, fun hv => absurd hv hnv, fun _ => rfl⟩
  · exact have hnv : ¬ vscBindValidSpec s r :=
      fun hv => absurd (hv.2.2.2.2.1 h5.1) h5.2
    ⟨iff_of_false (fun h => absurd h invNeBg) hnv, fun hv => absurd hv hnv, fun _ => rfl⟩
  · exact have hnv : ¬ vscBindValidSpec s r :=
      fun hv => absurd h6.2 (hv.2.2.2.2.2.1 h6.1)
    ⟨iff_of_false (fun h => absurd h invNeBg) hnv, fun hv => absurd hv hnv, fun _ => rfl⟩
  · exact have hnv : ¬ vscBindValidSpec s r :=
      fun hv => absurd (hv.2.2.2.2.2.2.1 h7.1) (by omega)
    ⟨iff_of_false (fun h => absurd h invNeBg) hnv, fun hv => absurd hv hnv, fun _ => rfl⟩
  · exact have hnv : ¬ vscBindValidSpec s r :=
      fun hv => absurd hv.2.2.2.2.2.2.2 h8
    ⟨iff_of_false (fun h => absurd h invNeBg) hnv, fun hv => absurd hv hnv, fun _ => rfl⟩
  · have hv : vscBindValidSpec s r :=
      ⟨by omega, by omega, by omega, h4,
       fun ha => by tauto,
       fun hl => by tauto,
       fun ha => by rcases Nat.eq_zero_or_pos (s.ports r.ppid).ld with h0 | h0
                    · exact absurd (And.intro ha h0) h7
                    · exact h0,
       not_not.mp h8⟩
    refine ⟨iff_of_true rfl hv, fun _ => ?_, fun hn => absurd hv hn⟩
    show vscBindEffect s r = vscBindSpecState s r
    unfold vscBindEffect vscBindSpecState setVppb setPort
    rw [hop]

/-- Request object of VSC_UNBIND (fmapi_vsc_unbind_req) with the header
opcode. -/
structure VscUnbindReq where
  opcode : Nat
  vcsid : Nat
  vppbid : Nat

/-- Mutation performed by the accepting path of fmop_vsc_unbind
(fmapi_vsc_handler.c, step 10). -/
def vscUnbindEffect (s : CxlSwitch) (r : VscUnbindReq) : CxlSwitch :=
  let b := (s.vcss r.vcsid).vppbs r.vppbid
  let s1 := setVppb s r.vcsid r.vppbid
    { b with bind_status := BindStatus.unbound, ppid := 0, ldid := 0 }
  { s1 with bos_running := 0, bos_pcnt := 100, bos_opcode := r.opcode,
            bos_rc := FMRC_SUCCESS, bos_ext := 0 }

/-- Handler for FM API VSC Unbind (fmop_vsc_unbind, fmapi_vsc_handler.c).
Note the fourth validation test: when the bound vPPB records a physical
port id that is out of range, the source resets the bind status to
UNBOUND before jumping to the rejection exit. -/
def fmop_vsc_unbind (s : CxlSwitch) (r : VscUnbindReq) : CxlSwitch × Nat × Nat :=
  if s.num_vcss ≤ r.vcsid then (s, FMRC_INVALID_INPUT, 0)
  else if (s.vcss r.vcsid).num ≤ r.vppbid then (s, FMRC_INVALID_INPUT, 0)
  else if ((s.vcss r.vcsid).vppbs r.vppbid).bind_status = BindStatus.unbound ∨
      ((s.vcss r.vcsid).vppbs r.vppbid).bind_status = BindStatus.inprogress then
    (s, FMRC_INVALID_INPUT, 0)
  else if s.num_ports ≤ ((s.vcss r.vcsid).vppbs r.vppbid).ppid then
    (setVppb s r.vcsid r.vppbid
      { (s.vcss r.vcsid).vppbs r.vppbid with bind_status := BindStatus.unbound },
     FMRC_INVALID_INPUT, 0)
  else if ¬ ((s.ports ((s.vcss r.vcsid).vppbs r.vppbid).ppid).state = PortState.binding ∨
      (s.ports ((s.vcss r.vcsid).vppbs r.vppbid).ppid).state = PortState.unbinding ∨
      (s.ports ((s.vcss r.vcsid).vppbs r.vppbid).ppid).state = PortState.usp ∨
      (s.ports ((s.vcss r.vcsid).vppbs r.vppbid).ppid).state = PortState.dsp) then
    (s, FMRC_INVALID_INPUT, 0)
  else (vscUnbindEffect s r, FMRC_BACKGROUND_OP_STARTED, 0)

/-- Request object of PSC_CFG (fmapi_psc_cfg_req). The wire format bounds
are ext less than 16 (a 4-bit extended register number), reg less than
256 and fdbe less than 16; they are carried as hypotheses where needed. -/
structure PscCfgReq where
  ppid : Nat
  reg : Nat
  ext : Nat
  fdbe : Nat
  type : Nat
  data : Fin 4 → Nat

/-- The 16-bit register offset of a config-space access:
reg = (ext shifted left 8) or-ed with the register number, stored u16. -/
def cfgReg16 (ext reg : Nat) : Nat := ((ext <<< 8) ||| reg) % 65536

/-- Byte-enable masked write of up to 4 bytes into a config space
(the four fdbe-guarded assignments of the source). -/
def byteEnableWrite (cfg : Nat → Nat) (reg : Nat) (fdbe : Nat) (data : Fin 4 → Nat) :
    Nat → Nat :=
  fun a =>
    if fdbe &&& 0x01 ≠ 0 ∧ a = reg + 0 then data 0
    else if fdbe &&& 0x02 ≠ 0 ∧ a = reg + 1 then data 1
    else if fdbe &&& 0x04 ≠ 0 ∧ a = reg + 2 then data 2
    else if fdbe &&& 0x08 ≠ 0 ∧ a = reg + 3 then data 3
    else cfg a

/-- Byte-enable masked read of 4 bytes out of a config space: the
response data is zeroed, then each enabled byte is copied. -/
def byteEnableRead (cfg : Nat → Nat) (reg : Nat) (fdbe : Nat) : Fin 4 → Nat :=
  fun i => if fdbe &&& (1 <<< i.val) ≠ 0 then cfg (reg + i.val) else 0

/-- Handler for FM API PSC CXL.io Config (fmop_psc_cfg,
fmapi_psc_handler.c), emulator mode. Result is (state at exit, rc).
The switch on the request type has cases only for READ and WRITE; any
other type value falls through to the SUCCESS exit with no action. -/
def fmop_psc_cfg (s : CxlSwitch) (r : PscCfgReq) : CxlSwitch × Nat :=
  if s.num_ports ≤ r.ppid then (s, FMRC_INVALID_INPUT)
  else if r.type = FMCT_READ then (s, FMRC_SUCCESS)
  else if r.type = FMCT_WRITE then
    (setPort s r.ppid
      { s.ports r.ppid with
          cfgspace := byteEnableWrite (s.ports r.ppid).cfgspace
            (cfgReg16 r.ext r.reg) r.fdbe r.data },
     FMRC_SUCCESS)
  else (s, FMRC_SUCCESS)

/-- Response data of a PSC_CFG READ (the four fdbe-guarded copies out of
the addressed config space). -/
def fmop_psc_cfg_read_data (s : CxlSwitch) (r : PscCfgReq) : Fin 4 → Nat :=
  byteEnableRead (s.ports r.ppid).cfgspace (cfgReg16 r.ext r.reg) r.fdbe

/-- The config-space byte indices a PSC_CFG request actually touches:
for a validated READ or WRITE, the indices reg16 + i for each byte
enable bit i set in fdbe; nothing otherwise. -/
def psc_cfg_accessed (s : CxlSwitch) (r : PscCfgReq) : List Nat :=
  if s.num_ports ≤ r.ppid then []
  else if r.type = FMCT_READ ∨ r.type = FMCT_WRITE then
    (if r.fdbe &&& 0x01 ≠ 0 then [cfgReg16 r.ext r.reg + 0] else []) ++
    (if r.fdbe &&& 0x02 ≠ 0 then [cfgReg16 r.ext r.reg + 1] else []) ++
    (if r.fdbe &&& 0x04 ≠ 0 then [cfgReg16 r.ext r.reg + 2] else []) ++
    (if r.fdbe &&& 0x08 ≠ 0 then [cfgReg16 r.ext r.reg + 3] else [])
  else []

/-- Request object of PSC_PORT_CTRL (fmapi_psc_port_ctrl_req). -/
structure PscPortCtrlReq where
  ppid : Nat
  opcode : Nat

/-- Handler for FM API PSC Physical Port Control (fmop_psc_port_ctrl,
fmapi_psc_handler.c), emulator mode. Result is (state at exit, rc, lock
released at exit). The sub-opcode switch has a default case that jumps
to the function exit label, which lies below the mutex release of the
send label: on that path the handler returns with the lock still held. -/
def fmop_psc_port_ctrl (s : CxlSwitch) (r : PscPortCtrlReq) : CxlSwitch × Nat × Bool :=
  if s.num_ports ≤ r.ppid then (s, FMRC_INVALID_INPUT, true)
  else if r.opcode = FMPO_ASSERT_PERST then
    (setPort s r.ppid { s.ports r.ppid with perst := 0x1 }, FMRC_SUCCESS, true)
  else if r.opcode = FMPO_DEASSERT_PERST then
    (setPort s r.ppid { s.ports r.ppid with perst := 0x0 }, FMRC_SUCCESS, true)
  else if r.opcode = FMPO_RESET_PPB then (s, FMRC_SUCCESS, true)
  else (s, FMRC_INVALID_INPUT, false)

/-- Request object of MPC_CFG (fmapi_mpc_cfg_req). -/
structure MpcCfgReq where
  ppid : Nat
  ldid : Nat
  reg : Nat
  ext : Nat
  fdbe : Nat
  type : Nat
  data : Fin 4 → Nat

/-- Handler for FM API MPC LD CXL.io Config (fmop_mpc_cfg,
fmapi_mpc_handler.c). Result is `none` when the source would dereference
a NULL mld pointer, otherwise (state at exit, rc, lock released at
exit). Like fmop_psc_port_ctrl, the default case of the type switch
jumps past the mutex release. -/
def fmop_mpc_cfg (s : CxlSwitch) (r : MpcCfgReq) : Option (CxlSwitch × Nat × Bool) :=
  if s.num_ports ≤ r.ppid then some (s, FMRC_INVALID_INPUT, true)
  else if ¬ ((s.ports r.ppid).dt = DevType.cxlType3 ∨
      (s.ports r.ppid).dt = DevType.cxlType3Pooled) then
    some (s, FMRC_INVALID_INPUT, true)
  else if (s.ports r.ppid).ld ≤ r.ldid then some (s, FMRC_INVALID_INPUT, true)
  else if r.type = FMCT_READ then
    match (s.ports r.ppid).mld with
    | none => none
    | some _ => some (s, FMRC_SUCCESS, true)
  else if r.type = FMCT_WRITE then
    match (s.ports r.ppid).mld with
    | none => none
    | some m =>
      some (setPort s r.ppid
        { s.ports r.ppid with
            mld := some
              { m with
                cfgspace := fun l =>
                  if l = r.ldid then
                    byteEnableWrite (m.cfgspace r.ldid) (cfgReg16 r.ext r.reg) r.fdbe r.data
                  else m.cfgspace l } },
       FMRC_SUCCESS, true)
  else some (s, FMRC_INVALID_INPUT, false)

/-- Request object of MPC_MEM (fmapi_mpc_mem_req). The data field is the
inbound byte list of a WRITE. -/
structure MpcMemReq where
  ppid : Nat
  ldid : Nat
  offset : Nat
  len : Nat
  type : Nat
  data : List Nat

/-- Granularity in bytes: 1 MiB scaled by the FMMG code. -/
def granBytes : Granularity → Nat
  | Granularity.g256mb => 1024 * 1024 * 256
  | Granularity.g512mb => 1024 * 1024 * 512
  | Granularity.g1gb => 1024 * 1024 * 1024

/-- Base byte offset of an LD in the memory image (u64 product). -/
def mldBase (m : Mld) (ldid : Nat) : Nat :=
  (granBytes m.granularity * m.rng1 ldid) % 2 ^ 64

/-- Byte offset of the start of the next LD in the memory image. -/
def mldMax (m : Mld) (ldid : Nat) : Nat :=
  (granBytes m.granularity * (m.rng2 ldid + 1)) % 2 ^ 64

/-- Size in bytes of an LD, as the u64 difference max - base. -/
def mldLdSize (m : Mld) (ldid : Nat) : Nat :=
  (mldMax m ldid + 2 ^ 64 - mldBase m ldid) % 2 ^ 64

/-- The memory image after the WRITE memcpy of fmop_mpc_mem: the len
bytes at base + offset take the inbound data, every other byte keeps
its value. -/
def mpcMemWriteFun (m : Mld) (r : MpcMemReq) (mem : Nat → Nat) : Nat → Nat :=
  fun a =>
    if (mldBase m r.ldid + r.offset) % 2 ^ 64 ≤ a ∧
        a < (mldBase m r.ldid + r.offset) % 2 ^ 64 + r.len then
      r.data.getD (a - (mldBase m r.ldid + r.offset) % 2 ^ 64) 0
    else mem a

/-- The part of fmop_mpc_mem below the NULL checks, for a port whose mld
is m with mapped memory image mem: the length and offset validations and
the READ/WRITE action (the type switch has no other case, so any other
type falls through to the SUCCESS exit with no copy). -/
def fmop_mpc_mem_body (s : CxlSwitch) (r : MpcMemReq) (m : Mld) (mem : Nat → Nat) :
    CxlSwitch × Nat × List Nat :=
  if 4096 < r.len then (s, FMRC_INVALID_INPUT, [])
  else if mldLdSize m r.ldid ≤ (r.offset + r.len) % 2 ^ 64 then
    (s, FMRC_INVALID_INPUT, [])
  else if r.type = FMCT_READ then
    (s, FMRC_SUCCESS,
     (List.range r.len).map (fun i => mem ((mldBase m r.ldid + r.offset) % 2 ^ 64 + i)))
  else if r.type = FMCT_WRITE then
    (setPort s r.ppid
      { s.ports r.ppid with
          mld := some { m with memspace := some (mpcMemWriteFun m r mem) } },
     FMRC_SUCCESS, [])
  else (s, FMRC_SUCCESS, [])

/-- Handler for FM API MPC LD CXL.io Mem (fmop_mpc_mem,
fmapi_mpc_handler.c). Result is (state at exit, rc, response data).
READ copies len bytes out of the memory image; WRITE copies the inbound
bytes into it. -/
def fmop_mpc_mem (s : CxlSwitch) (r : MpcMemReq) : CxlSwitch × Nat × List Nat :=
  if s.num_ports ≤ r.ppid then (s, FMRC_INVALID_INPUT, [])
  else if ¬ ((s.ports r.ppid).dt = DevType.cxlType3 ∨
      (s.ports r.ppid).dt = DevType.cxlType3Pooled) then
    (s, FMRC_INVALID_INPUT, [])
  else if (s.ports r.ppid).ld ≤ r.ldid then (s, FMRC_INVALID_INPUT, [])
  else
    match (s.ports r.ppid).mld with
    | none => (s, FMRC_UNSUPPORTED, [])
    | some m =>
      match m.memspace with
      | none => (s, FMRC_UNSUPPORTED, [])
      | some mem => fmop_mpc_mem_body s r m mem

/-- Request object of the ISC Set Response Message Limit command. -/
structure IscMsgLimitReq where
  limit : Nat

/-- Handler for FM API ISC Set Response Message Limit
(fmop_isc_msg_limit_set, fmapi_isc_handler.c). -/
def fmop_isc_msg_limit_set (s : CxlSwitch) (r : IscMsgLimitReq) : CxlSwitch × Nat :=
  if r.limit < 8 ∨ 20 < r.limit then (s, FMRC_INVALID_INPUT)
  else ({ s with msg_rsp_limit_n := r.limit }, FMRC_SUCCESS)

/-- Request object of MCC Get LD Allocations (fmapi_mcc_alloc_get_req). -/
structure MccAllocGetReq where
  start : Nat
  limit : Nat

/-- Response object of MCC Get LD Allocations. -/
structure MccAllocGetRsp where
  total : Nat
  granularity : Granularity
  start : Nat
  num : Nat
  list : List (Nat × Nat)
deriving DecidableEq

/-- Handler for FM API MCC Get LD Allocations (fmop_mcc_get_ld_alloc,
fmapi_mcc_handler.c), for the port handed over by the MPC_TMC dispatch.
On a rejection no response object is produced (the header alone is
emitted with length 0), modelled as `none`. -/
def fmop_mcc_get_ld_alloc (p : Port) (r : MccAllocGetReq) :
    Nat × Option MccAllocGetRsp :=
  match p.mld with
  | none => (FMRC_INVALID_INPUT, none)
  | some m =>
    if m.num < r.start then (FMRC_INVALID_INPUT, none)
    else
      let e := if r.limit < m.num - r.start then r.start + r.limit else m.num
      (FMRC_SUCCESS,
       some { total := m.num, granularity := m.granularity, start := r.start,
              num := e - r.start,
              list := (List.range (e - r.start)).map
                (fun k => (m.rng1 (r.start + k), m.rng2 (r.start + k))) })

/-- Request (and response) fields of MCC Set QoS Control
(fmapi_mcc_qos_ctrl). -/
structure MccQosCtrl where
  epc_en : Nat
  ttr_en : Nat
  egress_mod_pcnt : Nat
  egress_sev_pcnt : Nat
  sample_interval : Nat
  rcb : Nat
  comp_interval : Nat
deriving DecidableEq

/-- Handler for FM API MCC Set QoS Control (fmop_mcc_set_qos_ctrl,
fmapi_mcc_handler.c). The seven scalars are stored with no range
validation. When the port has no MLD the source jumps to the send label
whose response preparation dereferences the NULL mld pointer: that path
is `none` (the crash). -/
def fmop_mcc_set_qos_ctrl (p : Port) (r : MccQosCtrl) :
    Option (Port × Nat × MccQosCtrl) :=
  match p.mld with
  | none => none
  | some m =>
    let m' :=
      { m with
        epc_en := r.epc_en, ttr_en := r.ttr_en,
        egress_mod_pcnt := r.egress_mod_pcnt,
        egress_sev_pcnt := r.egress_sev_pcnt,
        sample_interval := r.sample_interval,
        rcb := r.rcb, comp_interval := r.comp_interval }
    some ({ p with mld := some m' }, FMRC_SUCCESS,
          { epc_en := m'.epc_en, ttr_en := m'.ttr_en,
            egress_mod_pcnt := m'.egress_mod_pcnt,
            egress_sev_pcnt := m'.egress_sev_pcnt,
            sample_interval := m'.sample_interval,
            rcb := m'.rcb, comp_interval := m'.comp_interval })

/-- Disconnect a device from a port (state_disconnect_device, state.c):
clear the twelve link fields, zero the PCI config space, free the device
name, flush and unmap any backing memory, free the per-LD config spaces
and the MLD. Freed pointers become `none`, the freed MLD takes its
owned buffers with it. -/
def state_disconnect_device (p : Port) : Port :=
  { p with
    dv := 0, dt := DevType.nodev, cv := 0, nlw := 0, cls := 0, ltssm := 0,
    lane := 0, lane_rev := 0, perst := 0, prsnt := 0, pwrctrl := 0, ld := 0,
    cfgspace := fun _ => 0,
    device_name := none,
    mld := none }

/-- A concrete MLD with 4 logical devices, 256 MiB granularity, each LD
spanning multipliers rng1 = 0 .. rng2 = 3, with a mapped memory image. -/
def mld0 : Mld :=
  { memory_size := 0x100000000, num := 4, epc := 0, ttr := 0,
    granularity := Granularity.g256mb,
    rng1 := fun _ => 0, rng2 := fun _ => 3,
    epc_en := 0, ttr_en := 0, egress_mod_pcnt := 10, egress_sev_pcnt := 25,
    sample_interval := 8, rcb := 0, comp_interval := 64, bp_avg_pcnt := 0,
    alloc_bw := fun _ => 16, bw_limit := fun _ => 0,
    cfgspace := fun _ _ => 0, memspace := some (fun _ => 0),
    file := some "port01" }

/-- A concrete empty (disconnected) port. -/
def port0 : Port :=
  { ppid := 0, state := PortState.usp, dv := 0, dt := DevType.nodev, cv := 0,
    mlw := 16, nlw := 0, speeds := 0, mls := 0, cls := 0, ltssm := 0,
    lane := 0, lane_rev := 0, perst := 0, prsnt := 0, pwrctrl := 0, ld := 0,
    cfgspace := fun _ => 0, mld := none, device_name := none }

/-- A concrete port carrying mld0 (a Type-3 pooled device with 4 LDs). -/
def mldPort : Port :=
  { port0 with
    ppid := 1, state := PortState.dsp,
    dt := DevType.cxlType3Pooled, ld := 4, prsnt := 1,
    mld := some mld0, device_name := some "mld_5x8_2.0_4G" }

/-- A concrete unbound vPPB. -/
def vppb0 : Vppb := { vppbid := 0, bind_status := BindStatus.unbound, ppid := 0, ldid := 0 }

/-- A concrete VCS with 8 vPPBs, all unbound. -/
def vcs0 : Vcs := { vcsid := 0, state := 1, uspid := 0, num := 8, vppbs := fun _ => vppb0 }

/-- A concrete switch: 2 ports (port 1 is the MLD port), 1 VCS. -/
def sw0 : CxlSwitch :=
  { msg_rsp_limit_n := 16, bos_running := 0, bos_pcnt := 0, bos_opcode := 0,
    bos_rc := 0, bos_ext := 0, num_ports := 2, num_vcss := 1,
    ports := fun i => if i = 1 then mldPort else port0,
    vcss := fun _ => vcs0 }

/-- A concrete valid VSC_BIND request, binding LD 0 of port 1 into vPPB 1. -/
def bindReq0 : VscBindReq :=
  { opcode := FMOP_VSC_BIND, vcsid := 0, vppbid := 1, ppid := 1, ldid := 0 }

/-- Witness for claim C1: the concrete request bindReq0 against sw0
satisfies the validation conditions and is accepted. -/
theorem fmop_vsc_bind_meets_claim_witness :
    (fmop_vsc_bind sw0 bindReq0).2.1 = FMRC_BACKGROUND_OP_STARTED :=
  (fmop_vsc_bind_meets_claim sw0 bindReq0 rfl).1.mpr (by decide)

/-- A PSC_PORT_CTRL request with a valid port id and the undefined
sub-opcode 0x03. -/
def portCtrlReqBad : PscPortCtrlReq := { ppid := 0, opcode := 0x03 }

/-- An MPC_CFG request with a valid MLD port and LD and the undefined
access type 0x02. -/
def mpcCfgReqBad : MpcCfgReq :=
  { ppid := 1, ldid := 0, reg := 0, ext := 0, fdbe := 0, type := 0x02,
    data := fun _ => 0 }

/-- Claim C2: refuted by the code. On the default branch of the
sub-opcode switch, fmop_psc_port_ctrl jumps to the function exit below
the mutex release and returns with the Model lock still held; the
default branch of the access-type switch of fmop_mpc_cfg does the same.
Both runs below take that branch with an in-range ppid, i.e. from
inside the guarded region. -/
theorem handler_lock_leak :
    (portCtrlReqBad.ppid < sw0.num_ports ∧
      (fmop_psc_port_ctrl sw0 portCtrlReqBad).2.2 = false) ∧
    (mpcCfgReqBad.ppid < sw0.num_ports ∧
      (fmop_mpc_cfg sw0 mpcCfgReqBad).map (fun o => o.2.2) = some false) := by
  decide

/-- A vPPB still recorded as bound to physical port 5, which is out of
range in a 2-port switch. -/
def vppbStale : Vppb :=
  { vppbid := 0, bind_status := BindStatus.boundPort, ppid := 5, ldid := 0 }

/-- The switch sw0 with the stale vPPB at VCS 0, vPPB 0. -/
def swStale : CxlSwitch :=
  { sw0 with vcss := fun _ =>
      { vcs0 with vppbs := fun j => if j = 0 then vppbStale else vppb0 } }

/-- The VSC_UNBIND request addressing the stale vPPB. -/
def unbindReq0 : VscUnbindReq := { opcode := 0x5302, vcsid := 0, vppbid := 0 }

/-- Counterexample to claim C3: this VSC_UNBIND fails validation (the
recorded ppid of the bound vPPB is out of range) and returns
INVALID_INPUT, yet the handler mutates the vPPB: its bind status is
reset to UNBOUND on the rejection path. -/
theorem vsc_unbind_mutates_on_reject :
    (fmop_vsc_unbind swStale unbindReq0).2.1 = FMRC_INVALID_INPUT ∧
    ((fmop_vsc_unbind swStale unbindReq0).1.vcss 0).vppbs 0 ≠
      (swStale.vcss 0).vppbs 0 := by
  decide

set_option maxHeartbeats 1600000 in
/-- Claim C3 as amended: for every embedded handler, a response with
rc neither SUCCESS nor BACKGROUND_OP_STARTED leaves the model unchanged
-- with the single exception of VSC_UNBIND, which on the
recorded-ppid-out-of-range rejection resets the addressed vPPB's bind
status to UNBOUND (and changes nothing else). VSC_BIND rejections in
particular return INVALID_INPUT with payload length 0 and an unchanged
model. -/
theorem no_mutation_on_error_amended :
    (∀ (s : CxlSwitch) (r : VscBindReq),
      (fmop_vsc_bind s r).2.1 ≠ FMRC_SUCCESS →
      (fmop_vsc_bind s r).2.1 ≠ FMRC_BACKGROUND_OP_STARTED →
      (fmop_vsc_bind s r).1 = s ∧
      (fmop_vsc_bind s r).2.1 = FMRC_INVALID_INPUT ∧
      (fmop_vsc_bind s r).2.2 = 0) ∧
    (∀ (s : CxlSwitch) (r : VscUnbindReq),
      (fmop_vsc_unbind s r).2.1 ≠ FMRC_SUCCESS →
      (fmop_vsc_unbind s r).2.1 ≠ FMRC_BACKGROUND_OP_STARTED →
      (fmop_vsc_unbind s r).1 = s ∨
      (fmop_vsc_unbind s r).1 = setVppb s r.vcsid r.vppbid
        { (s.vcss r.vcsid).vppbs r.vppbid with bind_status := BindStatus.unbound }) ∧
    (∀ (s : CxlSwitch) (r : PscCfgReq),
      (fmop_psc_cfg s r).2 ≠ FMRC_SUCCESS → (fmop_psc_cfg s r).1 = s) ∧
    (∀ (s : CxlSwitch) (r : PscPortCtrlReq),
      (fmop_psc_port_ctrl s r).2.1 ≠ FMRC_SUCCESS → (fmop_psc_port_ctrl s r).1 = s) ∧
    (∀ (s : CxlSwitch) (r : MpcMemReq),
      (fmop_mpc_mem s r).2.1 ≠ FMRC_SUCCESS → (fmop_mpc_mem s r).1 = s) ∧
    (∀ (s : CxlSwitch) (r : IscMsgLimitReq),
      (fmop_isc_msg_limit_set s r).2 ≠ FMRC_SUCCESS →
      (fmop_isc_msg_limit_set s r).1 = s) := by
  refine ⟨?_, ?_, ?_, ?_, ?_, ?_⟩
  · intro s r
    unfold fmop_vsc_bind
    split_ifs <;> intro hS hBG
    all_goals first
      | exact ⟨rfl, rfl, rfl⟩
      | exact absurd rfl hBG
  · intro s r
    unfold fmop_vsc_unbind
    split_ifs <;> intro hS hBG
    case pos => exact Or.inl rfl
    all_goals first
      | exact Or.inl rfl
      | exact Or.inr rfl
      | exact absurd rfl hBG
  · intro s r
    unfold fmop_psc_cfg
    split_ifs <;> intro hS
    all_goals first
      | rfl
      | exact absurd rfl hS
  · intro s r
    unfold fmop_psc_port_ctrl
    split_ifs <;> intro hS
    all_goals first
      | rfl
      | exact absurd rfl hS
  · intro s r
    unfold fmop_mpc_mem fmop_mpc_mem_body
    repeat' split
    all_goals intro hS
    all_goals first
      | rfl
      | exact absurd rfl hS
  · intro s r
    unfold fmop_isc_msg_limit_set
    split_ifs <;> intro hS
    all_goals first
      | rfl
      | exact absurd rfl hS

/-- Witness for the amended claim C3: the VSC_BIND with vcsid 99 against
the one-VCS switch sw0 is rejected with INVALID_INPUT, payload length 0
and an unchanged model. -/
theorem no_mutation_on_error_amended_witness :
    (fmop_vsc_bind sw0
      { opcode := FMOP_VSC_BIND, vcsid := 99, vppbid := 1, ppid := 1, ldid := 0 }).1 = sw0 ∧
    (fmop_vsc_bind sw0
      { opcode := FMOP_VSC_BIND, vcsid := 99, vppbid := 1, ppid := 1, ldid := 0 }).2.1 =
      FMRC_INVALID_INPUT := by
  have h := no_mutation_on_error_amended.1 sw0
    { opcode := FMOP_VSC_BIND, vcsid := 99, vppbid := 1, ppid := 1, ldid := 0 }
    (by decide) (by decide)
  exact ⟨h.1, h.2.1⟩

/-- Helper: reading a Port back out of setPort at the written index. -/
theorem setPort_ports_self (s : CxlSwitch) (i : Nat) (p : Port) :
    (setPort s i p).ports i = p := by
  simp [setPort]

/-- Helper: a validated MPC_MEM request reaches the body of the handler
with the port's mld and memory image in hand. -/
theorem fmop_mpc_mem_eq_body (s : CxlSwitch) (r : MpcMemReq) (m : Mld) (mem : Nat → Nat)
    (hp : r.ppid < s.num_ports)
    (hdt : (s.ports r.ppid).dt = DevType.cxlType3 ∨
      (s.ports r.ppid).dt = DevType.cxlType3Pooled)
    (hld : r.ldid < (s.ports r.ppid).ld)
    (hm : (s.ports r.ppid).mld = some m)
    (hms : m.memspace = some mem) :
    fmop_mpc_mem s r = fmop_mpc_mem_body s r m mem := by
  unfold fmop_mpc_mem
  rw [if_neg (by omega), if_neg (not_not_intro hdt), if_neg (by omega)]
  split
  · rename_i heq
    rw [hm] at heq
    cases heq
  · rename_i m2 heq
    rw [hm] at heq
    injection heq with h2
    subst h2
    split
    · rename_i heq2
      rw [hms] at heq2
      cases heq2
    · rename_i mem2 heq2
      rw [hms] at heq2
      injection heq2 with h3
      subst h3
      rfl

/-- Helper: the WRITE action of a validated MPC_MEM request. -/
theorem fmop_mpc_mem_body_write (s : CxlSwitch) (r : MpcMemReq) (m : Mld) (mem : Nat → Nat)
    (hlen : r.len ≤ 4096)
    (hbound : (r.offset + r.len) % 2 ^ 64 < mldLdSize m r.ldid)
    (htype : r.type = FMCT_WRITE) :
    fmop_mpc_mem_body s r m mem =
      (setPort s r.ppid
        { s.ports r.ppid with
            mld := some { m with memspace := some (mpcMemWriteFun m r mem) } },
       FMRC_SUCCESS, []) := by
  unfold fmop_mpc_mem_body
  rw [if_neg (by omega), if_neg (by omega), if_neg (by rw [htype]; decide), if_pos htype]

/-- Helper: the READ action of a validated MPC_MEM request. -/
theorem fmop_mpc_mem_body_read (s : CxlSwitch) (r : MpcMemReq) (m : Mld) (mem : Nat → Nat)
    (hlen : r.len ≤ 4096)
    (hbound : (r.offset + r.len) % 2 ^ 64 < mldLdSize m r.ldid)
    (htype : r.type = FMCT_READ) :
    fmop_mpc_mem_body s r m mem =
      (s, FMRC_SUCCESS,
       (List.range r.len).map (fun i => mem ((mldBase m r.ldid + r.offset) % 2 ^ 64 + i))) := by
  unfold fmop_mpc_mem_body
  rw [if_neg (by omega), if_neg (by omega), if_pos htype]

/-- Helper: reading a list back element by element reproduces the list. -/
theorem list_range_map_getD (l : List Nat) (n : Nat) (hn : l.length = n) :
    (List.range n).map (fun i => l.getD i 0) = l := by
  apply List.ext_getElem
  · simp [hn]
  · intro i h1 h2
    simp only [List.getElem_map, List.getElem_range]
    have hi : i < l.length := by simpa [hn] using h2
    simp [List.getD_eq_getElem?_getD, List.getElem?_eq_getElem hi]

/-- Claim C4: on an MLD port with a mapped memory image, for every
request passing the MPC_MEM validation, a WRITE returns SUCCESS and an
immediately following READ of the same (ppid, ldid, offset) and length
returns exactly the written bytes. -/
theorem mpc_mem_write_read_roundtrip (s : CxlSwitch) (rw : MpcMemReq)
    (m : Mld) (mem : Nat → Nat)
    (hp : rw.ppid < s.num_ports)
    (hdt : (s.ports rw.ppid).dt = DevType.cxlType3 ∨
      (s.ports rw.ppid).dt = DevType.cxlType3Pooled)
    (hld : rw.ldid < (s.ports rw.ppid).ld)
    (hm : (s.ports rw.ppid).mld = some m)
    (hms : m.memspace = some mem)
    (hlen : rw.len ≤ 4096)
    (hdata : rw.data.length = rw.len)
    (hbound : (rw.offset + rw.len) % 2 ^ 64 < mldLdSize m rw.ldid)
    (htype : rw.type = FMCT_WRITE) :
    (fmop_mpc_mem s rw).2.1 = FMRC_SUCCESS ∧
    (fmop_mpc_mem (fmop_mpc_mem s rw).1 { rw with type := FMCT_READ }).2.2 = rw.data := by
  have hw : fmop_mpc_mem s rw =
      (setPort s rw.ppid
        { s.ports rw.ppid with
            mld := some { m with memspace := some (mpcMemWriteFun m rw mem) } },
       FMRC_SUCCESS, []) :=
    (fmop_mpc_mem_eq_body s rw m mem hp hdt hld hm hms).trans
      (fmop_mpc_mem_body_write s rw m mem hlen hbound htype)
  refine ⟨by rw [hw], ?_⟩
  rw [hw]
  set pW : Port :=
    { s.ports rw.ppid with
        mld := some { m with memspace := some (mpcMemWriteFun m rw mem) } } with hpW
  set sW : CxlSwitch := setPort s rw.ppid pW with hsW
  have hports : sW.ports rw.ppid = pW := setPort_ports_self s rw.ppid pW
  have hr : fmop_mpc_mem sW { rw with type := FMCT_READ } =
      (sW, FMRC_SUCCESS,
       (List.range rw.len).map
         (fun i => mpcMemWriteFun m rw mem ((mldBase m rw.ldid + rw.offset) % 2 ^ 64 + i))) := by
    refine (fmop_mpc_mem_eq_body sW { rw with type := FMCT_READ }
        { m with memspace := some (mpcMemWriteFun m rw mem) } (mpcMemWriteFun m rw mem)
        ?_ ?_ ?_ ?_ rfl).trans
      (fmop_mpc_mem_body_read sW { rw with type := FMCT_READ } _ _ hlen hbound rfl)
    · exact hp
    · rw [hports]
      exact hdt
    · rw [hports]
      exact hld
    · rw [hports]
  rw [hr]
  show (List.range rw.len).map
      (fun i => mpcMemWriteFun m rw mem ((mldBase m rw.ldid + rw.offset) % 2 ^ 64 + i)) = rw.data
  have hpt : ∀ i, i < rw.len →
      mpcMemWriteFun m rw mem ((mldBase m rw.ldid + rw.offset) % 2 ^ 64 + i) =
        rw.data.getD i 0 := by
    intro i hi
    unfold mpcMemWriteFun
    rw [if_pos (by omega)]
    congr 1
    omega
  have hmap : (List.range rw.len).map
      (fun i => mpcMemWriteFun m rw mem ((mldBase m rw.ldid + rw.offset) % 2 ^ 64 + i)) =
      (List.range rw.len).map (fun i => rw.data.getD i 0) :=
    List.map_congr_left (fun i hi => hpt i (List.mem_range.mp hi))
  rw [hmap]
  exact list_range_map_getD rw.data rw.len hdata

/-- A concrete MPC_MEM WRITE of the bytes DE AD BE EF at offset 0x1000
of LD 0 of port 1. -/
def memWriteReq0 : MpcMemReq :=
  { ppid := 1, ldid := 0, offset := 0x1000, len := 4, type := FMCT_WRITE,
    data := [0xDE, 0xAD, 0xBE, 0xEF] }

/-- Witness for claim C4: against sw0 the concrete WRITE succeeds and
the read-back returns DE AD BE EF. -/
theorem mpc_mem_write_read_roundtrip_witness :
    (fmop_mpc_mem sw0 memWriteReq0).2.1 = FMRC_SUCCESS ∧
    (fmop_mpc_mem (fmop_mpc_mem sw0 memWriteReq0).1
      { memWriteReq0 with type := FMCT_READ }).2.2 = [0xDE, 0xAD, 0xBE, 0xEF] :=
  mpc_mem_write_read_roundtrip sw0 memWriteReq0 mld0 (fun _ => 0)
    (by decide) (by decide) (by decide) rfl rfl (by decide)
    (by decide) (by decide) (by decide)

/-- Helper: SUCCESS is not INVALID_INPUT. -/
theorem sucNeInv : FMRC_SUCCESS = FMRC_INVALID_INPUT → False := by decide

/-- Claim C5: on a port with an MLD, MCC_ALLOC_GET is rejected with
INVALID_INPUT exactly when start exceeds the LD count; otherwise it
returns SUCCESS with header (total = num, granularity, start,
num = min(limit, num - start)) and that many consecutive (rng1, rng2)
pairs from index start; at start = num the response carries zero
pairs and SUCCESS. -/
theorem mcc_get_ld_alloc_meets_claim (p : Port) (r : MccAllocGetReq) (m : Mld)
    (hm : p.mld = some m) :
    ((fmop_mcc_get_ld_alloc p r).1 = FMRC_INVALID_INPUT ↔ m.num < r.start) ∧
    (r.start ≤ m.num →
      fmop_mcc_get_ld_alloc p r = (FMRC_SUCCESS,
        some { total := m.num, granularity := m.granularity, start := r.start,
               num := min r.limit (m.num - r.start),
               list := (List.range (min r.limit (m.num - r.start))).map
                 (fun k => (m.rng1 (r.start + k), m.rng2 (r.start + k))) })) ∧
    (r.start = m.num →
      (fmop_mcc_get_ld_alloc p r).1 = FMRC_SUCCESS ∧
      ((fmop_mcc_get_ld_alloc p r).2.map MccAllocGetRsp.num) = some 0) := by
  unfold fmop_mcc_get_ld_alloc
  split
  · rename_i heq
    rw [hm] at heq
    cases heq
  · rename_i m2 heq
    rw [hm] at heq
    injection heq with h2
    subst h2
    split_ifs with h hlim
    · exact ⟨iff_of_true rfl h, fun hle => absurd h (by omega),
             fun h0 => absurd h (by omega)⟩
    · have he : r.start + r.limit - r.start = min r.limit (m.num - r.start) := by omega
      refine ⟨iff_of_false (fun hEq => sucNeInv hEq) h, fun hle => ?_, fun h0 => ?_⟩
      · show ((FMRC_SUCCESS,
          some ({ total := m.num, granularity := m.granularity, start := r.start,
                  num := r.start + r.limit - r.start,
                  list := (List.range (r.start + r.limit - r.start)).map
                    (fun k => (m.rng1 (r.start + k), m.rng2 (r.start + k))) } :
            MccAllocGetRsp)) : Nat × Option MccAllocGetRsp) = _
        rw [← he]
      · exact absurd hlim (by omega)
    · have he : m.num - r.start = min r.limit (m.num - r.start) := by omega
      refine ⟨iff_of_false (fun hEq => sucNeInv hEq) h, fun hle => ?_, fun h0 => ?_⟩
      · show ((FMRC_SUCCESS,
          some ({ total := m.num, granularity := m.granularity, start := r.start,
                  num := m.num - r.start,
                  list := (List.range (m.num - r.start)).map
                    (fun k => (m.rng1 (r.start + k), m.rng2 (r.start + k))) } :
            MccAllocGetRsp)) : Nat × Option MccAllocGetRsp) = _
        rw [← he]
      · have hz : m.num - r.start = 0 := by omega
        exact ⟨rfl, congrArg some hz⟩

/-- Witness for claim C5: asking mldPort (4 LDs, all ranges 0..3) for 2
allocations starting at LD 1 returns the two pairs and the claimed
header. -/
theorem mcc_get_ld_alloc_meets_claim_witness :
    fmop_mcc_get_ld_alloc mldPort { start := 1, limit := 2 } =
      (FMRC_SUCCESS,
       some { total := 4, granularity := Granularity.g256mb, start := 1, num := 2,
              list := [(0, 3), (0, 3)] }) := by
  have h := (mcc_get_ld_alloc_meets_claim mldPort { start := 1, limit := 2 } mld0 rfl).2.1
    (by decide)
  rw [h]
  decide

/-- A PSC_CFG request with a valid ppid and the undefined access type
0x02. -/
def pscCfgReqBad : PscCfgReq :=
  { ppid := 0, reg := 0, ext := 0, fdbe := 0xF, type := 0x02, data := fun _ => 0 }

/-- Counterexample to claim C6: a PSC_CFG whose type is neither READ nor
WRITE is not failed; the switch on the type has no default case, so the
handler falls through and returns SUCCESS. -/
theorem psc_cfg_unknown_type_success_cex :
    pscCfgReqBad.type ≠ FMCT_READ ∧ pscCfgReqBad.type ≠ FMCT_WRITE ∧
    pscCfgReqBad.ppid < sw0.num_ports ∧
    (fmop_psc_cfg sw0 pscCfgReqBad).2 = FMRC_SUCCESS := by
  decide

/-- Claim C6 as amended: a PSC_CFG with a valid ppid and an unknown type
returns rc = SUCCESS, performs no config-space access and leaves the
model unchanged. -/
theorem psc_cfg_unknown_type_amended (s : CxlSwitch) (r : PscCfgReq)
    (hp : r.ppid < s.num_ports)
    (h0 : r.type ≠ FMCT_READ) (h1 : r.type ≠ FMCT_WRITE) :
    fmop_psc_cfg s r = (s, FMRC_SUCCESS) ∧ psc_cfg_accessed s r = [] := by
  unfold fmop_psc_cfg psc_cfg_accessed
  rw [if_neg (by omega : ¬ s.num_ports ≤ r.ppid), if_neg h0, if_neg h1,
      if_neg (show ¬ (r.type = FMCT_READ ∨ r.type = FMCT_WRITE) from
        fun hc => hc.elim h0 h1),
      if_neg (by omega : ¬ s.num_ports ≤ r.ppid)]
  exact ⟨rfl, rfl⟩

/-- Witness for the amended claim C6 at the concrete request. -/
theorem psc_cfg_unknown_type_amended_witness :
    fmop_psc_cfg sw0 pscCfgReqBad = (sw0, FMRC_SUCCESS) ∧
    psc_cfg_accessed sw0 pscCfgReqBad = [] :=
  psc_cfg_unknown_type_amended sw0 pscCfgReqBad (by decide) (by decide) (by decide)

/-- The MLD after an MCC_QOS_CTRL_SET: the seven QoS scalars take the
request's values verbatim, with no range validation. -/
def mldWithQos (m : Mld) (r : MccQosCtrl) : Mld :=
  { m with
    epc_en := r.epc_en, ttr_en := r.ttr_en,
    egress_mod_pcnt := r.egress_mod_pcnt,
    egress_sev_pcnt := r.egress_sev_pcnt,
    sample_interval := r.sample_interval,
    rcb := r.rcb, comp_interval := r.comp_interval }

/-- Claim C7 as amended: MSG_LIMIT_SET preserves
8 <= msg_rsp_limit_n <= 20; MCC_QOS_CTRL_SET on an MLD port stores the
seven request scalars verbatim with no range validation, so the MLD
QoS bounds hold after the request exactly when the request's values
satisfy them. -/
theorem qos_bounds_amended :
    (∀ (s : CxlSwitch) (r : IscMsgLimitReq),
      8 ≤ s.msg_rsp_limit_n → s.msg_rsp_limit_n ≤ 20 →
      8 ≤ (fmop_isc_msg_limit_set s r).1.msg_rsp_limit_n ∧
        (fmop_isc_msg_limit_set s r).1.msg_rsp_limit_n ≤ 20) ∧
    (∀ (p : Port) (r : MccQosCtrl) (m : Mld), p.mld = some m →
      fmop_mcc_set_qos_ctrl p r = some
        ({ p with mld := some (mldWithQos m r) }, FMRC_SUCCESS, r)) := by
  constructor
  · intro s r h1 h2
    unfold fmop_isc_msg_limit_set
    split_ifs with h
    · exact ⟨h1, h2⟩
    · exact ⟨(by omega : 8 ≤ r.limit), (by omega : r.limit ≤ 20)⟩
  · intro p r m hm
    unfold fmop_mcc_set_qos_ctrl
    split
    · rename_i heq
      rw [hm] at heq
      cases heq
    · rename_i m2 heq
      rw [hm] at heq
      injection heq with h2
      subst h2
      rfl

/-- Witness for the amended claim C7: setting the limit to 12 keeps the
bound, and a QoS SET on mldPort stores the request scalars. -/
theorem qos_bounds_amended_witness :
    (8 ≤ (fmop_isc_msg_limit_set sw0 { limit := 12 }).1.msg_rsp_limit_n ∧
      (fmop_isc_msg_limit_set sw0 { limit := 12 }).1.msg_rsp_limit_n ≤ 20) ∧
    ((fmop_mcc_set_qos_ctrl mldPort
        { epc_en := 0, ttr_en := 0, egress_mod_pcnt := 50, egress_sev_pcnt := 75,
          sample_interval := 8, rcb := 0, comp_interval := 64 }).map
      (fun o => o.2.2.egress_mod_pcnt)) = some 50 := by
  refine ⟨qos_bounds_amended.1 sw0 { limit := 12 } (by decide) (by decide), ?_⟩
  rw [qos_bounds_amended.2 mldPort _ mld0 rfl]
  rfl

/-- The out-of-domain QoS SET values of the §9 note: a moderate egress
percentage of 200 and a sample interval of 255. -/
def qosReqBad : MccQosCtrl :=
  { epc_en := 0, ttr_en := 0, egress_mod_pcnt := 200, egress_sev_pcnt := 250,
    sample_interval := 255, rcb := 0, comp_interval := 0 }

/-- Counterexample to claim C7: after this MCC_QOS_CTRL_SET the request
is answered with SUCCESS and the stored egress_mod_pcnt is 200 and the
stored sample_interval is 255, violating the claimed bounds. -/
theorem qos_bounds_violated_cex :
    ((fmop_mcc_set_qos_ctrl mldPort qosReqBad).map (fun o => o.2.1)) = some FMRC_SUCCESS ∧
    (((fmop_mcc_set_qos_ctrl mldPort qosReqBad).map (fun o => o.1)).bind Port.mld).map
      Mld.egress_mod_pcnt = some 200 ∧
    ¬ (200 ≤ 100) ∧
    (((fmop_mcc_set_qos_ctrl mldPort qosReqBad).map (fun o => o.1)).bind Port.mld).map
      Mld.sample_interval = some 255 ∧
    ¬ (255 ≤ 15) := by
  rw [qos_bounds_amended.2 mldPort qosReqBad mld0 rfl]
  exact ⟨rfl, rfl, by decide, rfl, by decide⟩

/-- Counterexample to claim C8: disconnect also mutates a field outside
the claimed set -- the device name is freed and nulled, so a port
whose device_name was set does not keep it. -/
theorem disconnect_clears_device_name_cex :
    (state_disconnect_device mldPort).device_name ≠ mldPort.device_name ∧
    mldPort.device_name ≠ none := by
  decide

/-- Claim C8 as amended: disconnect zeroes exactly the twelve link
fields, zero-fills the 4 KiB config buffer, frees the MLD (with its
backing map and per-LD buffers) and ALSO frees the device name; the
port's state, ppid, mlw, speeds and mls are left unchanged. -/
theorem disconnect_effect_amended (p : Port) :
    (state_disconnect_device p).dv = 0 ∧
    (state_disconnect_device p).dt = DevType.nodev ∧
    (state_disconnect_device p).cv = 0 ∧
    (state_disconnect_device p).nlw = 0 ∧
    (state_disconnect_device p).cls = 0 ∧
    (state_disconnect_device p).ltssm = 0 ∧
    (state_disconnect_device p).lane = 0 ∧
    (state_disconnect_device p).lane_rev = 0 ∧
    (state_disconnect_device p).perst = 0 ∧
    (state_disconnect_device p).prsnt = 0 ∧
    (state_disconnect_device p).pwrctrl = 0 ∧
    (state_disconnect_device p).ld = 0 ∧
    (state_disconnect_device p).cfgspace = (fun _ => 0) ∧
    (state_disconnect_device p).mld = none ∧
    (state_disconnect_device p).device_name = none ∧
    (state_disconnect_device p).state = p.state ∧
    (state_disconnect_device p).ppid = p.ppid ∧
    (state_disconnect_device p).mlw = p.mlw ∧
    (state_disconnect_device p).speeds = p.speeds ∧
    (state_disconnect_device p).mls = p.mls :=
  ⟨rfl, rfl, rfl, rfl, rfl, rfl, rfl, rfl, rfl, rfl, rfl, rfl, rfl, rfl, rfl,
   rfl, rfl, rfl, rfl, rfl⟩

/-- A PSC_CFG READ at the top of the 4 KiB config space: extended
register 0xF, register 0xFF, byte enable bit 3 only. All fields are
within their wire-format ranges (ext and fdbe 4 bits, reg 8 bits). -/
def pscCfgReqOob : PscCfgReq :=
  { ppid := 0, reg := 0xFF, ext := 0xF, fdbe := 0x8, type := FMCT_READ,
    data := fun _ => 0 }

/-- Claim C9: refuted by the code. The validated READ below accesses
config-space byte index (0xF shifted left 8 or 0xFF) + 3 = 4098, which
is outside the 4 KiB buffer: a 3-byte overflow past the end of
port.cfgspace. -/
theorem psc_cfg_out_of_bounds_access :
    pscCfgReqOob.ext ≤ 0xF ∧ pscCfgReqOob.reg ≤ 0xFF ∧ pscCfgReqOob.fdbe ≤ 0xF ∧
    pscCfgReqOob.ppid < sw0.num_ports ∧
    psc_cfg_accessed sw0 pscCfgReqOob = [4098] ∧ ¬ (4098 < 4096) := by
  decide

/-- A Type-3 port that reports 4 LDs but carries no MLD descriptor. -/
def t3EmptyPort : Port :=
  { port0 with ppid := 1, dt := DevType.cxlType3, ld := 4, mld := none }

/-- A QoS control request with in-domain values. -/
def qosReq0 : MccQosCtrl :=
  { epc_en := 0, ttr_en := 0, egress_mod_pcnt := 10, egress_sev_pcnt := 25,
    sample_interval := 8, rcb := 0, comp_interval := 64 }

/-- Claim C10: refuted by the code. Addressed to a Type-3 port whose mld
is absent, MCC_QOS_CTRL_SET does not produce an INVALID_INPUT response:
the rejection path falls into the response preparation, which reads
p.mld's fields through the NULL pointer (the crash, modelled as none). -/
theorem mcc_set_qos_ctrl_null_deref :
    t3EmptyPort.mld = none ∧
    (t3EmptyPort.dt = DevType.cxlType3 ∨ t3EmptyPort.dt = DevType.cxlType3Pooled) ∧
    fmop_mcc_set_qos_ctrl t3EmptyPort qosReq0 = none :=
  ⟨rfl, Or.inl rfl, rfl⟩
